import Mathlib

/-!
Verification of the client-side session and token lifecycle manager of the
Financial_Analysis_Platform frontend, shallowly embedded from
`frontend/src/services/auth.js`, `frontend/src/utils/sessionTimeout.js`,
`frontend/src/components/AppWrapper.js` and
`frontend/src/components/auth/SessionTimeoutWarning.js`.

Modelling conventions:
* A JWT string is modelled by `Jwt`: its literal string value (`raw`, needed
  because JavaScript treats the empty string as falsy) together with the
  outcome of decoding its payload (`JSON.parse(atob(token.split('.')[1]))`),
  which is `none` exactly when that decoding throws.
* `localStorage` with the two token keys is modelled by `Storage`; a missing
  key is `none`.
* The ambient clock (`Date.now() / 1000`) is passed as an explicit `now`
  argument (in epoch seconds, as an integer).
* Timers (`setTimeout` / `clearTimeout`) are modelled by optional absolute
  deadlines plus counters of how often each callback has run; advancing the
  clock fires every pending timer whose deadline has passed.
* The error handler of the axios response interceptor is modelled as an explicit
  function of the error status, the stored tokens, and the behaviour of the
  external credential server (spec section 6: renew returns a new
  accessToken/refreshToken pair or fails).
-/

set_option autoImplicit false

namespace FinAuth

/-- Decoded JWT payload as used by `auth.js`: only the `exp` claim (expiry
in epoch seconds) is inspected; it may be absent from the decoded JSON. -/
structure JwtPayload where
  exp : Option Int
  deriving DecidableEq, Repr

/-- Model of a JWT string value: `raw` is the literal string (JavaScript
treats `""` as falsy in `if (!token)`), and `payload` is the result of
`JSON.parse(atob(token.split('.')[1]))` — `none` when that decoding throws,
`some p` when it yields payload `p`. -/
structure Jwt where
  raw : String
  payload : Option JwtPayload
  deriving DecidableEq, Repr

/-- Embedding of `parseJwt` (auth.js lines 60-66): returns the decoded
payload, or `null` (here `none`) when decoding throws. -/
def parseJwt (t : Jwt) : Option JwtPayload := t.payload

/-- Embedding of `isTokenExpired` (auth.js lines 73-81).  JavaScript
semantics made explicit: `if (!token) return true` is true for `null` and
for the empty string; `payload.exp < now` is `false` when `exp` is absent
(`undefined < now` evaluates to `false`), and is a strict comparison. -/
def isTokenExpired (token : Option Jwt) (now : Int) : Bool :=
  match token with
  | none => true
  | some t =>
    if t.raw == "" then true
    else
      match parseJwt t with
      | none => true
      | some payload =>
        match payload.exp with
        | none => false
        | some e => decide (e < now)

/-- Transcription of the contract stated by the SPEC for the token inspector (spec
section 4.2), for comparison with `isTokenExpired` as the code defines it: expired when
claims cannot be decoded, when `expiresAtEpochSeconds` is absent, or when
`now + skewSeconds ≥ expiresAtEpochSeconds`. -/
def isExpiredSpec (token : Option Jwt) (now skewSeconds : Int) : Bool :=
  match token with
  | none => true
  | some t =>
    match parseJwt t with
    | none => true
    | some payload =>
      match payload.exp with
      | none => true
      | some e => decide (now + skewSeconds ≥ e)

/-- Model of the two-key `localStorage` slice owned by `auth.js`
(`financial_analysis_access_token` and `financial_analysis_refresh_token`);
a key absent from storage is `none`. -/
structure Storage where
  access : Option Jwt
  refresh : Option Jwt
  deriving DecidableEq, Repr

/-- Embedding of `saveTokens` (auth.js lines 17-20): one call writes both
keys, last write wins. -/
def saveTokens (_s : Storage) (accessToken refreshToken : Jwt) : Storage :=
  { access := some accessToken, refresh := some refreshToken }

/-- Embedding of `getToken` (auth.js lines 26-28). -/
def getToken (s : Storage) : Option Jwt := s.access

/-- Embedding of `getRefreshToken` (auth.js lines 34-36). -/
def getRefreshToken (s : Storage) : Option Jwt := s.refresh

/-- Embedding of `clearTokens` (auth.js lines 41-44): removes both keys. -/
def clearTokens (_s : Storage) : Storage :=
  { access := none, refresh := none }

/-- JavaScript truthiness of a possibly-null string value: `!!v` is false
exactly for `null` and the empty string. -/
def jsTruthy : Option Jwt → Bool
  | none => false
  | some t => !(t.raw == "")

/-- Embedding of `isAuthenticated` (auth.js lines 50-53): `!!getToken()`. -/
def isAuthenticated (s : Storage) : Bool := jsTruthy (getToken s)

/-- Session state as exposed by `AppWrapper` (AppWrapper.js lines 14-17):
the component recomputes its `isAuthenticated` flag as `!!getToken()` after
every navigation, so the observable state is logged-out exactly when that
flag is false. -/
inductive SessionState where
  | loggedOut
  | authenticated
  deriving DecidableEq, Repr

/-- Observable session state derived from storage, as `AppWrapper` derives
it on each location change. -/
def sessionStateOf (s : Storage) : SessionState :=
  if isAuthenticated s then .authenticated else .loggedOut

/-- Embedding of `handleTimeout` in `AppWrapper` (AppWrapper.js lines
22-26): on inactivity timeout, clear both tokens and navigate to the login
page; returns the new storage and the navigation target. -/
def handleTimeout (s : Storage) : Storage × String :=
  (clearTokens s, "/login?session_expired=true")

/-! Inactivity tracking, embedded from `frontend/src/utils/sessionTimeout.js`.
Timers are modelled by optional absolute deadlines (in milliseconds); firing
a callback increments its counter.  DOM event listeners are modelled by the
list of function values registered for each event type: the module registers
three fresh anonymous arrow functions (one per event type), while
`removeInactivityTracking` asks the DOM to remove the named function
`resetInactivityTimer`, which was never registered. -/

/-- TIMEOUT_DURATION from sessionTimeout.js line 5: 15 minutes in ms. -/
def TIMEOUT_DURATION : Nat := 15 * 60 * 1000

/-- WARNING_DURATION from sessionTimeout.js line 6: 14 minutes in ms. -/
def WARNING_DURATION : Nat := 14 * 60 * 1000

/-- The two distinct JavaScript function values relevant to listener
registration: the anonymous arrow wrapper registered by
`initializeInactivityTracking`, and the named `resetInactivityTimer`
function that `removeInactivityTracking` passes to `removeEventListener`. -/
inductive ListenerFun where
  | anonReset
  | resetRef
  deriving DecidableEq, Repr

/-- State of the sessionTimeout.js module plus the DOM listener lists for
the three tracked event types.  `warningAt` and `logoutAt` are the absolute
deadlines of the two pending `setTimeout` timers (`none` = no pending
timer); `warningFires` and `timeoutFires` count how many times the warning
callback and the `onTimeout` callback have run. -/
structure InactivityState where
  warningAt : Option Nat
  logoutAt : Option Nat
  warningFires : Nat
  timeoutFires : Nat
  mousemoveListeners : List ListenerFun
  keydownListeners : List ListenerFun
  clickListeners : List ListenerFun
  deriving DecidableEq, Repr

/-- State with no pending timers, no listeners, and zero fired callbacks. -/
def initialInactivityState : InactivityState :=
  { warningAt := none, logoutAt := none, warningFires := 0, timeoutFires := 0,
    mousemoveListeners := [], keydownListeners := [], clickListeners := [] }

/-- Embedding of `clearInactivityTimer` (sessionTimeout.js lines 24-27):
cancels both pending timers. -/
def clearInactivityTimer (s : InactivityState) : InactivityState :=
  { s with warningAt := none, logoutAt := none }

/-- Embedding of `startInactivityTimer` (sessionTimeout.js lines 8-22):
clears any existing timers, then schedules the warning timer at
`now + WARNING_DURATION` and the timeout timer at `now + TIMEOUT_DURATION`. -/
def startInactivityTimer (s : InactivityState) (now : Nat) : InactivityState :=
  { clearInactivityTimer s with
      warningAt := some (now + WARNING_DURATION),
      logoutAt := some (now + TIMEOUT_DURATION) }

/-- Embedding of `resetInactivityTimer` (sessionTimeout.js lines 30-33). -/
def resetInactivityTimer (s : InactivityState) (now : Nat) : InactivityState :=
  startInactivityTimer (clearInactivityTimer s) now

/-- Embedding of `initializeInactivityTracking` (sessionTimeout.js lines
36-42): registers a fresh anonymous arrow listener on each of the three
event types, then starts the initial timers. -/
def initializeInactivityTracking (s : InactivityState) (now : Nat) : InactivityState :=
  startInactivityTimer
    { s with
        mousemoveListeners := s.mousemoveListeners ++ [ListenerFun.anonReset],
        keydownListeners := s.keydownListeners ++ [ListenerFun.anonReset],
        clickListeners := s.clickListeners ++ [ListenerFun.anonReset] }
    now

/-- Embedding of `removeInactivityTracking` (sessionTimeout.js lines 45-50):
`removeEventListener` removes a registration only when the function value is
identical to the registered one, so passing `resetInactivityTimer` (never
registered) removes nothing; then the timers are cleared. -/
def removeInactivityTracking (s : InactivityState) : InactivityState :=
  clearInactivityTimer
    { s with
        mousemoveListeners :=
          s.mousemoveListeners.filter (fun l => l != ListenerFun.resetRef),
        keydownListeners :=
          s.keydownListeners.filter (fun l => l != ListenerFun.resetRef),
        clickListeners :=
          s.clickListeners.filter (fun l => l != ListenerFun.resetRef) }

/-- Fires the warning timer if its deadline has passed by time `now`. -/
def fireWarning (s : InactivityState) (now : Nat) : InactivityState :=
  match s.warningAt with
  | some w =>
      if w ≤ now then
        { s with warningAt := none, warningFires := s.warningFires + 1 }
      else s
  | none => s

/-- Fires the timeout timer (running `onTimeout`) if its deadline has passed
by time `now`. -/
def fireLogout (s : InactivityState) (now : Nat) : InactivityState :=
  match s.logoutAt with
  | some d =>
      if d ≤ now then
        { s with logoutAt := none, timeoutFires := s.timeoutFires + 1 }
      else s
  | none => s

/-- Advances the clock to `now`: every pending timer whose deadline has
passed fires. -/
def fireDue (s : InactivityState) (now : Nat) : InactivityState :=
  fireLogout (fireWarning s now) now

/-- Running one registered listener at time `now`: the anonymous arrow calls
`resetInactivityTimer(onTimeout)`; the named `resetInactivityTimer`, if it
were ever registered, would likewise clear and restart the timers. -/
def runListener (s : InactivityState) (now : Nat) : ListenerFun → InactivityState
  | _ => resetInactivityTimer s now

/-- A mousemove event at time `now`: the DOM invokes every listener
registered for mousemove, in registration order. -/
def dispatchMousemove (s : InactivityState) (now : Nat) : InactivityState :=
  s.mousemoveListeners.foldl (fun st l => runListener st now l) s

/-- Processes a chronological list of activity times: before each activity
the clock first advances to that time (firing any elapsed timer), then the
activity resets the timers, exactly as the mousemove/keydown/click listeners
call `resetInactivityTimer`. -/
def runResets (s : InactivityState) : List Nat → InactivityState
  | [] => s
  | t :: ts => runResets (resetInactivityTimer (fireDue s t) t) ts

/-- Checks that a list of activity times is chronological and that each
activity arrives strictly before the warning deadline set by the previous
one (at time `prev`). -/
def resetsInTime : Nat → List Nat → Bool
  | _, [] => true
  | prev, t :: ts =>
      decide (prev ≤ t) && decide (t < prev + WARNING_DURATION) && resetsInTime t ts

/-- The time of the last activity in the list, or `prev` if none. -/
def lastReset (prev : Nat) : List Nat → Nat
  | [] => prev
  | t :: ts => lastReset t ts

/-! Request pipeline, embedded from the axios response interceptor in
`frontend/src/services/auth.js` lines 205-251 (api.interceptors.response.use).
The external credential server is not part of the frontend sources; its renew
endpoint is modelled from the spec (section 6): a POST with the current
refresh token returns a fresh accessToken/refreshToken pair or fails.  The
interceptor code reads only the `access` field of the response body. -/

/-- Result of transmitting the business request once: a success response, or
an error carrying the HTTP status (`none` when no response arrived at all,
i.e. a network-level failure). -/
inductive SendResult where
  | ok
  | err (status : Option Nat)
  deriving DecidableEq, Repr

/-- Error value observed by an awaiting caller when a promise rejects: an
HTTP error with its status, or a response-less network error. -/
inductive ApiError where
  | http (status : Nat)
  | network
  deriving DecidableEq, Repr

/-- The error value axios rejects with for a given send failure. -/
def mkErr : Option Nat → ApiError
  | some s => ApiError.http s
  | none => ApiError.network

/-- Body of a successful renew response.  Modelled from the spec: the
credential server is external to this repository; spec section 6 gives the
renew contract as returning a pair of a fresh access token and a fresh
refresh token. -/
structure RenewResponse where
  access : Jwt
  refresh : Jwt
  deriving DecidableEq, Repr

/-- The axios request config of one business request; only the `_retry`
mark set by the interceptor (auth.js line 214) is relevant. -/
structure Request where
  retryFlag : Bool
  deriving DecidableEq, Repr

/-- Environment of one pipeline run: the behaviour of the business endpoint
on the k-th transmission of the request, the behaviour of the credential
server renew endpoint, and the current clock in epoch seconds. -/
structure Env where
  send : Nat → SendResult
  renew : Jwt → Except ApiError RenewResponse
  now : Int

/-- Observable result of one request routed through the pipeline. -/
structure PipelineResult where
  storage : Storage
  redirect : Option String
  renewalCalls : Nat
  attempts : Nat
  outcome : Except ApiError Unit

/-- Embedding of a request travelling through `api`: transmission number `k`
of the request, then the response interceptor error path (auth.js lines
209-250).  On a 401 whose config is not yet marked `_retry`, the handler
marks it, validates the stored refresh token (logging out on a missing,
empty or expired one), POSTs to the renew endpoint, on success saves the new
access token TOGETHER WITH THE OLD refresh token (auth.js line 233) and
re-enters `api(originalRequest)` — modelled by the recursive call, whose
depth the fuel bounds; on renew failure it clears the tokens, redirects, and
rejects with the renew error itself.  Any other error is rejected to the
caller unchanged. -/
def apiCall (env : Env) : Nat → Storage → Request → Nat → PipelineResult
  | 0, st, _req, k =>
      { storage := st, redirect := none, renewalCalls := 0, attempts := k,
        outcome := Except.error ApiError.network }
  | _fuel + 1, st, req, k =>
    match env.send k with
    | SendResult.ok =>
        { storage := st, redirect := none, renewalCalls := 0, attempts := k + 1,
          outcome := Except.ok () }
    | SendResult.err status =>
        if status = some 401 ∧ req.retryFlag = false then
          match getRefreshToken st with
          | none =>
              { storage := clearTokens st, redirect := some "/login",
                renewalCalls := 0, attempts := k + 1,
                outcome := Except.error (mkErr status) }
          | some r =>
              if r.raw == "" || isTokenExpired (some r) env.now then
                { storage := clearTokens st, redirect := some "/login",
                  renewalCalls := 0, attempts := k + 1,
                  outcome := Except.error (mkErr status) }
              else
                match env.renew r with
                | Except.error refreshErr =>
                    { storage := clearTokens st,
                      redirect := some "/login?expired=true",
                      renewalCalls := 1, attempts := k + 1,
                      outcome := Except.error refreshErr }
                | Except.ok resp =>
                    let res := apiCall env _fuel (saveTokens st resp.access r)
                        { retryFlag := true } (k + 1)
                    { storage := res.storage, redirect := res.redirect,
                      renewalCalls := 1 + res.renewalCalls,
                      attempts := res.attempts, outcome := res.outcome }
        else
          { storage := st, redirect := none, renewalCalls := 0,
            attempts := k + 1, outcome := Except.error (mkErr status) }

/-- A fresh business request entering the pipeline: `_retry` unset, no
transmissions yet.  Fuel 2 covers the maximal re-entry depth the `_retry`
flag permits. -/
def runRequest (env : Env) (st : Storage) : PipelineResult :=
  apiCall env 2 st { retryFlag := false } 0

/-! Concurrent renewal burst.  N requests are already in flight when the
stored access token expires; all N come back 401 and their interceptor
error handlers run on the event loop.  The handlers share the token
storage and we count the renewal POSTs they issue.  `runBurst` is the
schedule in which each handler (including its awaited renew call) completes
before the next 401 response is processed — a realizable schedule of the
single-threaded event loop, since each response callback is queued
independently. -/

/-- Shared state of a burst of concurrent 401 error handlers: the token
storage and the number of renewal POSTs issued so far. -/
structure BurstState where
  storage : Storage
  renewals : Nat
  deriving DecidableEq, Repr

/-- One 401 error handler running to completion (auth.js lines 216-246),
for a request not yet marked `_retry`: validates the stored refresh token,
issues its renewal POST, and saves/clears the storage accordingly.  The
handler consults no coordination state whatsoever before issuing the POST. -/
def handle401 (now : Int) (renew : Jwt → Except ApiError RenewResponse)
    (g : BurstState) : BurstState :=
  match getRefreshToken g.storage with
  | none => { storage := clearTokens g.storage, renewals := g.renewals }
  | some r =>
      if r.raw == "" || isTokenExpired (some r) now then
        { storage := clearTokens g.storage, renewals := g.renewals }
      else
        match renew r with
        | Except.ok resp =>
            { storage := saveTokens g.storage resp.access r,
              renewals := g.renewals + 1 }
        | Except.error _ =>
            { storage := clearTokens g.storage, renewals := g.renewals + 1 }

/-- Runs `n` concurrent 401 handlers to completion in sequence (one
realizable event-loop schedule). -/
def runBurst (now : Int) (renew : Jwt → Except ApiError RenewResponse) :
    Nat → BurstState → BurstState
  | 0, g => g
  | n + 1, g => runBurst now renew n (handle401 now renew g)

/-! Concrete fixtures used by witnesses and counterexamples. -/

/-- A decodable token whose payload has no exp claim. -/
def tokenNoExp : Jwt :=
  { raw := "header.payload.sig", payload := some { exp := none } }

/-- A token on which payload decoding throws. -/
def tokenMalformed : Jwt :=
  { raw := "not-a-jwt", payload := none }

/-- A decodable token whose exp claim equals the test clock value below. -/
def tokenAtBoundary : Jwt :=
  { raw := "boundary.jwt", payload := some { exp := some 1700000000 } }

/-- Stored access token, already expired at clock 500. -/
def oldAccess : Jwt :=
  { raw := "oldAccessTok", payload := some { exp := some 100 } }

/-- Stored refresh token, still valid at clock 500. -/
def oldRefresh : Jwt :=
  { raw := "oldRefreshTok", payload := some { exp := some 1000000 } }

/-- Fresh access token minted by the credential server. -/
def newAccess : Jwt :=
  { raw := "newAccessTok", payload := some { exp := some 2000 } }

/-- Fresh refresh token minted by the credential server. -/
def newRefresh : Jwt :=
  { raw := "newRefreshTok", payload := some { exp := some 2000000 } }

/-- Storage in the renewal scenario of spec section 8: expired access
token, valid refresh token. -/
def expiredStorage : Storage :=
  { access := some oldAccess, refresh := some oldRefresh }

/-- Storage holding the empty string under the access token key. -/
def emptyStringTokenStorage : Storage :=
  { access := some { raw := "", payload := none }, refresh := none }

/-- Environment where the first transmission is rejected with status 401,
the renew endpoint succeeds with a fresh pair, and the retry succeeds. -/
def renewOkEnv : Env :=
  { send := fun k => if k = 0 then SendResult.err (some 401) else SendResult.ok,
    renew := fun _ => Except.ok { access := newAccess, refresh := newRefresh },
    now := 500 }

/-- Environment where every transmission is rejected with status 401 and
the renew POST itself dies with a response-less network error. -/
def renewFailEnv : Env :=
  { send := fun _ => SendResult.err (some 401),
    renew := fun _ => Except.error ApiError.network,
    now := 500 }

/-! Helper lemmas about the pipeline (shared by several claim theorems). -/

/-- On a re-entered request (config already marked `_retry`), the handler
never recovers again: at most one further transmission, no renewal call, and
the storage is left untouched. -/
theorem apiCall_retry_bounds (env : Env) (fuel : Nat) (st : Storage) (k : Nat) :
    (apiCall env fuel st { retryFlag := true } k).attempts ≤ k + 1 ∧
    (apiCall env fuel st { retryFlag := true } k).renewalCalls = 0 ∧
    (apiCall env fuel st { retryFlag := true } k).storage = st := by
  cases fuel with
  | zero => simp [apiCall]
  | succ fuel =>
    cases hs : env.send k with
    | ok => simp [apiCall, hs]
    | err status => simp [apiCall, hs]

/-- A fresh request makes at most two transmissions and at most one renewal
call, for EVERY amount of fuel: the `_retry` mark, not the fuel, is what
bounds the recursion. -/
theorem apiCall_first_bounds (env : Env) (fuel : Nat) (st : Storage) :
    (apiCall env fuel st { retryFlag := false } 0).attempts ≤ 2 ∧
    (apiCall env fuel st { retryFlag := false } 0).renewalCalls ≤ 1 := by
  cases fuel with
  | zero => simp [apiCall]
  | succ fuel =>
    cases hs : env.send 0 with
    | ok => simp [apiCall, hs]
    | err status =>
      by_cases h401 : status = some 401
      · subst h401
        cases hr : getRefreshToken st with
        | none => simp [apiCall, hs, hr]
        | some r =>
          cases hval : (r.raw == "" || isTokenExpired (some r) env.now) with
          | true => simp [apiCall, hs, hr, hval]
          | false =>
            cases hrw : env.renew r with
            | error e => simp [apiCall, hs, hr, hval, hrw]
            | ok resp =>
              obtain ⟨hatt, hren, -⟩ :=
                apiCall_retry_bounds env fuel (saveTokens st resp.access r) 1
              simp [apiCall, hs, hr, hval, hrw]
              omega
      · simp [apiCall, hs, h401]

/-- A fresh request whose first transmission gets a 401 with a valid stored
refresh token and a succeeding renew endpoint: the storage afterwards holds
the server access token paired with the OLD refresh token, written by the
single `saveTokens` call of the handler, and exactly one renewal call was
made. -/
theorem apiCall_first_renew_ok (env : Env) (fuel : Nat) (st : Storage) (r : Jwt)
    (resp : RenewResponse)
    (h401 : env.send 0 = SendResult.err (some 401))
    (hr : getRefreshToken st = some r)
    (hval : (r.raw == "" || isTokenExpired (some r) env.now) = false)
    (hrenew : env.renew r = Except.ok resp) :
    (apiCall env (fuel + 1) st { retryFlag := false } 0).storage =
      saveTokens st resp.access r ∧
    (apiCall env (fuel + 1) st { retryFlag := false } 0).renewalCalls = 1 := by
  obtain ⟨-, hren, hsto⟩ :=
    apiCall_retry_bounds env fuel (saveTokens st resp.access r) 1
  simp [apiCall, h401, hr, hval, hrenew, hren, hsto]

/-- A fresh request whose first transmission gets a 401 with a valid stored
refresh token and a FAILING renew endpoint: the handler clears the storage,
redirects to the expired-login page, and rejects with the renew error
itself. -/
theorem apiCall_first_renew_fail (env : Env) (fuel : Nat) (st : Storage) (r : Jwt)
    (e : ApiError)
    (h401 : env.send 0 = SendResult.err (some 401))
    (hr : getRefreshToken st = some r)
    (hval : (r.raw == "" || isTokenExpired (some r) env.now) = false)
    (hrenew : env.renew r = Except.error e) :
    apiCall env (fuel + 1) st { retryFlag := false } 0 =
      { storage := clearTokens st, redirect := some "/login?expired=true",
        renewalCalls := 1, attempts := 1, outcome := Except.error e } := by
  simp [apiCall, h401, hr, hval, hrenew]

/-- Full case analysis of the outcome a caller can observe from a fresh
request: success, the error of one of the two transmissions of the request,
or the error of the renew call, verbatim. -/
theorem apiCall_first_outcome (env : Env) (fuel : Nat) (st : Storage) :
    (apiCall env (fuel + 1 + 1) st { retryFlag := false } 0).outcome =
      Except.ok () ∨
    (∃ status, env.send 0 = SendResult.err status ∧
      (apiCall env (fuel + 1 + 1) st { retryFlag := false } 0).outcome =
        Except.error (mkErr status)) ∨
    (∃ status, env.send 1 = SendResult.err status ∧
      (apiCall env (fuel + 1 + 1) st { retryFlag := false } 0).outcome =
        Except.error (mkErr status)) ∨
    (∃ r e, getRefreshToken st = some r ∧ env.renew r = Except.error e ∧
      (apiCall env (fuel + 1 + 1) st { retryFlag := false } 0).outcome =
        Except.error e) := by
  cases hs : env.send 0 with
  | ok => exact Or.inl (by simp [apiCall, hs])
  | err status =>
    by_cases h401 : status = some 401
    · subst h401
      cases hr : getRefreshToken st with
      | none => exact Or.inr (Or.inl ⟨some 401, rfl, by simp [apiCall, hs, hr]⟩)
      | some r =>
        cases hval : (r.raw == "" || isTokenExpired (some r) env.now) with
        | true =>
            exact Or.inr (Or.inl ⟨some 401, rfl, by simp [apiCall, hs, hr, hval]⟩)
        | false =>
          cases hrw : env.renew r with
          | error e =>
              exact Or.inr (Or.inr (Or.inr
                ⟨r, e, rfl, hrw, by simp [apiCall, hs, hr, hval, hrw]⟩))
          | ok resp =>
            cases hs2 : env.send 1 with
            | ok => exact Or.inl (by simp [apiCall, hs, hr, hval, hrw, hs2])
            | err status2 =>
                exact Or.inr (Or.inr (Or.inl
                  ⟨status2, rfl, by simp [apiCall, hs, hr, hval, hrw, hs2]⟩))
    · exact Or.inr (Or.inl ⟨status, rfl, by simp [apiCall, hs, h401]⟩)

/-- WARNING_DURATION is strictly below TIMEOUT_DURATION. -/
theorem warning_lt_timeout : WARNING_DURATION < TIMEOUT_DURATION := by decide

/-- Helper for timer coalescing: starting from a state whose two timers
were scheduled at time `prev`, a chronological sequence of activity resets,
each arriving strictly before the pending warning deadline, fires neither
callback and leaves both deadlines measured from the last reset. -/
theorem runResets_coalesce (ts : List Nat) : ∀ (prev : Nat) (s : InactivityState),
    s.warningAt = some (prev + WARNING_DURATION) →
    s.logoutAt = some (prev + TIMEOUT_DURATION) →
    resetsInTime prev ts = true →
    (runResets s ts).warningFires = s.warningFires ∧
    (runResets s ts).timeoutFires = s.timeoutFires ∧
    (runResets s ts).warningAt = some (lastReset prev ts + WARNING_DURATION) ∧
    (runResets s ts).logoutAt = some (lastReset prev ts + TIMEOUT_DURATION) := by
  induction ts with
  | nil =>
    intro prev s hW hL _
    exact ⟨rfl, rfl, hW, hL⟩
  | cons t ts ih =>
    intro prev s hW hL hok
    have hok' : (prev ≤ t ∧ t < prev + WARNING_DURATION) ∧ resetsInTime t ts = true := by
      simpa [resetsInTime, Bool.and_eq_true, decide_eq_true_eq] using hok
    obtain ⟨⟨-, h2⟩, h3⟩ := hok'
    have hWT := warning_lt_timeout
    have hfire : fireDue s t = s := by
      have hw : ¬ (prev + WARNING_DURATION ≤ t) := by omega
      have hl : ¬ (prev + TIMEOUT_DURATION ≤ t) := by omega
      simp [fireDue, fireWarning, fireLogout, hW, hL, hw, hl]
    have hstep : runResets s (t :: ts) =
        runResets (resetInactivityTimer (fireDue s t) t) ts := rfl
    rw [hstep, hfire]
    exact ih t (resetInactivityTimer s t) rfl rfl h3

/-! Claim theorems. -/

/-- C1 counterexample: two concurrent requests that both received a 401
while the stored access token was expired and the stored refresh token was
valid issue TWO renewal network calls, not exactly one — the interceptor
has no single-flight coordination at all. -/
theorem C1_counterexample :
    (runBurst 500 renewOkEnv.renew 2
      { storage := expiredStorage, renewals := 0 }).renewals = 2 ∧
    (runBurst 500 renewOkEnv.renew 2
      { storage := expiredStorage, renewals := 0 }).renewals ≠ 1 :=
  ⟨rfl, by decide⟩

/-- C1 (amended): for N concurrent 401 handlers with a valid stored refresh
token and a succeeding renew endpoint, EACH handler issues its own renewal
network call — N handlers issue exactly N renewal calls; no handler attaches
to a renewal already in flight. -/
theorem C1_no_single_flight (now : Int)
    (renew : Jwt → Except ApiError RenewResponse) (r : Jwt) (resp : RenewResponse)
    (hraw : (r.raw == "") = false)
    (hexp : isTokenExpired (some r) now = false)
    (hrenew : renew r = Except.ok resp) :
    ∀ (n : Nat) (g : BurstState), getRefreshToken g.storage = some r →
      (runBurst now renew n g).renewals = g.renewals + n := by
  intro n
  induction n with
  | zero => intro g _; simp [runBurst]
  | succ n ih =>
    intro g hr
    have hstep : handle401 now renew g =
        { storage := saveTokens g.storage resp.access r,
          renewals := g.renewals + 1 } := by
      simp [handle401, hr, hraw, hexp, hrenew]
    have hnext : getRefreshToken
        (BurstState.mk (saveTokens g.storage resp.access r) (g.renewals + 1)).storage =
          some r := rfl
    calc (runBurst now renew (n + 1) g).renewals
        = (runBurst now renew n (handle401 now renew g)).renewals := rfl
      _ = g.renewals + 1 + n := by rw [hstep]; exact ih _ hnext
      _ = g.renewals + (n + 1) := by omega

/-- C1 witness: three concurrent handlers over the expired-token storage
with a succeeding renew endpoint issue three renewal calls. -/
theorem C1_no_single_flight_witness :
    (runBurst 500 renewOkEnv.renew 3
      { storage := expiredStorage, renewals := 0 }).renewals = 0 + 3 :=
  C1_no_single_flight 500 renewOkEnv.renew oldRefresh
    { access := newAccess, refresh := newRefresh } rfl rfl rfl 3
    { storage := expiredStorage, renewals := 0 } rfl

/-- C2 counterexample: a decodable token with NO exp claim is reported not
expired by the code (in JavaScript `undefined < now` is false), where the
specified contract reports it expired; and at the exact deadline
(`exp = now`) the code reports not expired where the contract, with
`skewSeconds = 0`, reports expired. -/
theorem C2_counterexample :
    isTokenExpired (some tokenNoExp) 1700000000 = false ∧
    isExpiredSpec (some tokenNoExp) 1700000000 0 = true ∧
    isTokenExpired (some tokenAtBoundary) 1700000000 = false ∧
    isExpiredSpec (some tokenAtBoundary) 1700000000 0 = true :=
  ⟨rfl, rfl, rfl, rfl⟩

/-- C2 (amended): `isTokenExpired` reports a token NOT expired exactly when
it is a nonempty decodable string whose exp claim is absent or at least the
current time; equivalently, it reports expired when the token is null or
empty, when decoding fails, or when a present exp claim is strictly below
`now`.  There is no skew parameter and the deadline comparison is strict. -/
theorem C2_expiry_characterization (token : Option Jwt) (now : Int) :
    isTokenExpired token now = false ↔
      ∃ t p, token = some t ∧ t.raw ≠ "" ∧ parseJwt t = some p ∧
        (p.exp = none ∨ ∃ e, p.exp = some e ∧ now ≤ e) := by
  cases token with
  | none => simp [isTokenExpired]
  | some t =>
    by_cases hraw : t.raw = ""
    · simp [isTokenExpired, hraw]
    · cases hp : parseJwt t with
      | none => simp [isTokenExpired, beq_iff_eq, hraw, hp]
      | some p =>
        cases he : p.exp with
        | none => simp [isTokenExpired, beq_iff_eq, hraw, hp, he]
        | some e =>
            simp [isTokenExpired, beq_iff_eq, hraw, hp, he,
              decide_eq_false_iff_not, Int.not_lt]

/-- C3: a request routed through the pipeline is transmitted at most twice
and triggers at most one renewal attempt: the `_retry` mark set on the
config makes the interceptor reject a second 401 outright, so no third
attempt ever happens. -/
theorem C3_retry_once (env : Env) (st : Storage) :
    (runRequest env st).attempts ≤ 2 ∧ (runRequest env st).renewalCalls ≤ 1 :=
  apiCall_first_bounds env 2 st

/-- C4 counterexample: the credential server returns the fresh pair
(newAccess, newRefresh), yet after the renewal the store pairs newAccess
with the OLD refresh token: a field of the old pair survives alongside a
field of the new one, and the returned pair does not replace the stored
pair. -/
theorem C4_counterexample :
    (runRequest renewOkEnv expiredStorage).storage.refresh = some oldRefresh ∧
    (runRequest renewOkEnv expiredStorage).storage ≠
      { access := some newAccess, refresh := some newRefresh } :=
  ⟨rfl, by decide⟩

/-- C4 (amended): on every successful renewal the handler performs one
`saveTokens` call that atomically writes the pair consisting of the access
token returned by the server and the PREVIOUSLY stored refresh token; the
refresh token returned by the server is discarded. -/
theorem C4_renewal_keeps_old_refresh (env : Env) (st : Storage) (r : Jwt)
    (resp : RenewResponse)
    (h401 : env.send 0 = SendResult.err (some 401))
    (hr : getRefreshToken st = some r)
    (hval : (r.raw == "" || isTokenExpired (some r) env.now) = false)
    (hrenew : env.renew r = Except.ok resp) :
    (runRequest env st).storage = saveTokens st resp.access r ∧
    (runRequest env st).storage = { access := some resp.access, refresh := some r } ∧
    (runRequest env st).renewalCalls = 1 := by
  obtain ⟨h1, h2⟩ := apiCall_first_renew_ok env 1 st r resp h401 hr hval hrenew
  exact ⟨h1, h1, h2⟩

/-- C4 witness: concrete run of the renewal scenario. -/
theorem C4_renewal_keeps_old_refresh_witness :
    (runRequest renewOkEnv expiredStorage).storage =
      saveTokens expiredStorage newAccess oldRefresh ∧
    (runRequest renewOkEnv expiredStorage).storage =
      { access := some newAccess, refresh := some oldRefresh } ∧
    (runRequest renewOkEnv expiredStorage).renewalCalls = 1 :=
  C4_renewal_keeps_old_refresh renewOkEnv expiredStorage oldRefresh
    { access := newAccess, refresh := newRefresh } rfl rfl rfl rfl

/-- C5: after the inactivity timeout handler runs, and likewise after a
renewal attempt fails, both token keys are cleared — `getToken` returns
none — and the observable session state is logged out (the interceptor
additionally redirects to the expired-login page). -/
theorem C5_forced_logout_clears (s : Storage) (env : Env) (st : Storage)
    (r : Jwt) (e : ApiError)
    (h401 : env.send 0 = SendResult.err (some 401))
    (hr : getRefreshToken st = some r)
    (hval : (r.raw == "" || isTokenExpired (some r) env.now) = false)
    (hrenew : env.renew r = Except.error e) :
    getToken (handleTimeout s).1 = none ∧
    getRefreshToken (handleTimeout s).1 = none ∧
    sessionStateOf (handleTimeout s).1 = SessionState.loggedOut ∧
    getToken (runRequest env st).storage = none ∧
    getRefreshToken (runRequest env st).storage = none ∧
    sessionStateOf (runRequest env st).storage = SessionState.loggedOut ∧
    (runRequest env st).redirect = some "/login?expired=true" := by
  have hrun : runRequest env st =
      { storage := clearTokens st, redirect := some "/login?expired=true",
        renewalCalls := 1, attempts := 1, outcome := Except.error e } :=
    apiCall_first_renew_fail env 1 st r e h401 hr hval hrenew
  rw [hrun]
  exact ⟨rfl, rfl, rfl, rfl, rfl, rfl, rfl⟩

/-- C5 witness: concrete runs of the timeout handler and of the failing
renewal scenario. -/
theorem C5_forced_logout_clears_witness :
    getToken (handleTimeout expiredStorage).1 = none ∧
    getRefreshToken (handleTimeout expiredStorage).1 = none ∧
    sessionStateOf (handleTimeout expiredStorage).1 = SessionState.loggedOut ∧
    getToken (runRequest renewFailEnv expiredStorage).storage = none ∧
    getRefreshToken (runRequest renewFailEnv expiredStorage).storage = none ∧
    sessionStateOf (runRequest renewFailEnv expiredStorage).storage =
      SessionState.loggedOut ∧
    (runRequest renewFailEnv expiredStorage).redirect = some "/login?expired=true" :=
  C5_forced_logout_clears expiredStorage renewFailEnv expiredStorage oldRefresh
    ApiError.network rfl rfl rfl rfl

/-- C6: fail-closed decode — for every token whose payload cannot be
decoded, `isTokenExpired` returns true, regardless of the clock. -/
theorem C6_fail_closed (t : Jwt) (now : Int) (h : parseJwt t = none) :
    isTokenExpired (some t) now = true := by
  by_cases hraw : t.raw = ""
  · simp [isTokenExpired, hraw]
  · simp [isTokenExpired, beq_iff_eq, hraw, h]

/-- C6 witness: a concrete malformed token is reported expired. -/
theorem C6_fail_closed_witness :
    parseJwt tokenMalformed = none ∧
    isTokenExpired (some tokenMalformed) 1700000000 = true :=
  ⟨rfl, C6_fail_closed tokenMalformed 1700000000 rfl⟩

/-- C7: timer coalescing — under a chronological sequence of activity
resets, each arriving strictly before the pending warning deadline, neither
the warning callback nor the timeout callback ever fires, and afterwards
both deadlines are measured from the most recent reset (the previously
scheduled timers having been discarded by each reset). -/
theorem C7_timer_coalescing (s0 : InactivityState) (t0 : Nat) (ts : List Nat)
    (h : resetsInTime t0 ts = true) :
    (runResets (startInactivityTimer s0 t0) ts).warningFires = s0.warningFires ∧
    (runResets (startInactivityTimer s0 t0) ts).timeoutFires = s0.timeoutFires ∧
    (runResets (startInactivityTimer s0 t0) ts).warningAt =
      some (lastReset t0 ts + WARNING_DURATION) ∧
    (runResets (startInactivityTimer s0 t0) ts).logoutAt =
      some (lastReset t0 ts + TIMEOUT_DURATION) :=
  runResets_coalesce ts t0 (startInactivityTimer s0 t0) rfl rfl h

/-- C7 witness: two resets, at 500 s and 900 s, each ahead of the pending
14-minute warning deadline: nothing fires and the deadlines end up measured
from the reset at 900 s. -/
theorem C7_timer_coalescing_witness :
    (runResets (startInactivityTimer initialInactivityState 0)
      [500000, 900000]).warningFires = initialInactivityState.warningFires ∧
    (runResets (startInactivityTimer initialInactivityState 0)
      [500000, 900000]).timeoutFires = initialInactivityState.timeoutFires ∧
    (runResets (startInactivityTimer initialInactivityState 0)
      [500000, 900000]).warningAt =
        some (lastReset 0 [500000, 900000] + WARNING_DURATION) ∧
    (runResets (startInactivityTimer initialInactivityState 0)
      [500000, 900000]).logoutAt =
        some (lastReset 0 [500000, 900000] + TIMEOUT_DURATION) :=
  C7_timer_coalescing initialInactivityState 0 [500000, 900000] (by decide)

/-- C8: the code violates the claim.  Immediately after
`removeInactivityTracking` both timers are indeed cancelled, BUT the
anonymous listeners remain registered (`removeEventListener` was handed
`resetInactivityTimer`, a function that was never registered), so a single
mousemove after stop re-arms the timers and the timeout callback runs
15 minutes later although tracking was never restarted. -/
theorem C8_stop_leaves_listeners_and_timeout_fires :
    (removeInactivityTracking
      (initializeInactivityTracking initialInactivityState 0)).warningAt = none ∧
    (removeInactivityTracking
      (initializeInactivityTracking initialInactivityState 0)).logoutAt = none ∧
    (removeInactivityTracking
      (initializeInactivityTracking initialInactivityState 0)).mousemoveListeners =
        [ListenerFun.anonReset] ∧
    (fireDue
      (dispatchMousemove
        (removeInactivityTracking
          (initializeInactivityTracking initialInactivityState 0)) 1000)
      (1000 + TIMEOUT_DURATION)).timeoutFires = 1 :=
  ⟨rfl, rfl, rfl, rfl⟩

/-- C9 counterexample: the original request fails with HTTP 401 and the
renewal POST dies with a network error; the caller observes that raw
network error of the renewal mechanism, which is neither business success
nor the original business error. -/
theorem C9_counterexample :
    (runRequest renewFailEnv expiredStorage).outcome =
      Except.error ApiError.network ∧
    mkErr (some 401) ≠ ApiError.network :=
  ⟨rfl, by decide⟩

/-- C9 (amended): a caller observes business success, the error of one of
the at most two transmissions of its own request, or — when the renewal
POST fails — the error of the renewal call itself, passed through verbatim; no
translation into an AuthenticationRequired kind happens. -/
theorem C9_error_propagation (env : Env) (st : Storage) :
    (runRequest env st).outcome = Except.ok () ∨
    (∃ status, env.send 0 = SendResult.err status ∧
      (runRequest env st).outcome = Except.error (mkErr status)) ∨
    (∃ status, env.send 1 = SendResult.err status ∧
      (runRequest env st).outcome = Except.error (mkErr status)) ∨
    (∃ r e, getRefreshToken st = some r ∧ env.renew r = Except.error e ∧
      (runRequest env st).outcome = Except.error e) :=
  apiCall_first_outcome env 0 st

/-- C10 counterexample: storage holding the empty string under the access
token key — a stored token value for which `isAuthenticated` nevertheless
returns false, because `!!` treats the empty string as falsy. -/
theorem C10_counterexample :
    getToken emptyStringTokenStorage ≠ none ∧
    isAuthenticated emptyStringTokenStorage = false :=
  ⟨by decide, rfl⟩

/-- C10 (amended): `isAuthenticated` is a pure presence check: it returns
true exactly when a NONEMPTY access token string is stored.  The
characterization never depends on the token payload, so a stored token
whose expiry has passed still authenticates. -/
theorem C10_presence_check (s : Storage) :
    isAuthenticated s = true ↔ ∃ t, getToken s = some t ∧ t.raw ≠ "" := by
  cases h : s.access with
  | none => simp [isAuthenticated, getToken, jsTruthy, h]
  | some t => simp [isAuthenticated, getToken, jsTruthy, h]

end FinAuth
